import Mathlib

/-!
Shallow embedding of the DER-VET sizing core (MicrogridDER/ESSSizing.py,
TechnologiesDER/DieselSizing.py, MicrogridScenario.py) and proofs about the
specification claims.

Machine reals are modelled by `ℚ`; cvxpy expressions by the small AST `CExpr`
(a rating is either a plain number — `CExpr.const` — or a cvxpy variable /
affine expression); a solver solution by an assignment `String → Option ℚ`
giving each cvxpy variable its `.value` (none before a solve).
-/

namespace DerVet

/-- A cvxpy scalar expression as built by the sizing code: a plain Python
number (`const`), a `cvx.Variable(name=...)` (`var`), a scalar multiple of an
expression (`smul`), or a sum (`add`).  Python object identity of ratings is
reflected by structural equality of the AST (the code only ever aliases whole
expressions, as in `self.dis_max_rated = self.ch_max_rated`). -/
inductive CExpr where
  | const : ℚ → CExpr
  | var : String → CExpr
  | smul : ℚ → CExpr → CExpr
  | add : CExpr → CExpr → CExpr
deriving DecidableEq, Repr

/-- A solver solution: the `.value` of each named cvxpy variable
(`none` when the problem has not been solved). -/
def Assignment : Type := String → Option ℚ

/-- Numeric value of a cvxpy expression under a solution (`none` if any
variable in it is unsolved) — the semantics of cvxpy `.value` on
expressions. -/
def exprVal (sol : Assignment) : CExpr → Option ℚ
  | .const c => some c
  | .var x => sol x
  | .smul c e => (exprVal sol e).map (fun v => c * v)
  | .add e₁ e₂ => match exprVal sol e₁, exprVal sol e₂ with
    | some v₁, some v₂ => some (v₁ + v₂)
    | _, _ => none

/-- The `try: x.value except AttributeError: x` idiom used throughout the
sizing accessors: a plain number has no `.value` attribute, so the except
branch returns the literal itself; a cvxpy expression yields its `.value`
(possibly Python `None`, i.e. `none`). -/
def try_value (sol : Assignment) : CExpr → Option ℚ
  | .const c => some c
  | e => exprVal sol e

/-! ## ESSSizing (MicrogridDER/ESSSizing.py) -/

/-- User-supplied parameters consumed by `ESSSizing.__init__` (a rating of
zero means "size me"). -/
structure ESSParams where
  ene_max_rated : ℚ
  ch_max_rated : ℚ
  dis_max_rated : ℚ
  llsoc : ℚ
  ulsoc : ℚ
  incl_energy_limits : Bool
  incl_charge_limits : Bool
  incl_discharge_limits : Bool
  limit_energy_max : Option (List ℚ)
  limit_charge_max : Option (List ℚ)
  limit_discharge_max : Option (List ℚ)
deriving DecidableEq

/-- Attributes of an `ESSSizing` instance after `__init__`. Constraints are
recorded as the argument of each `cvx.NonPos(...)` appended to
`size_constraints`. -/
structure ESSState where
  ene_max_rated : CExpr
  ch_max_rated : CExpr
  dis_max_rated : CExpr
  effective_soe_min : CExpr
  effective_soe_max : CExpr
  llsoc : ℚ
  ulsoc : ℚ
  size_constraints : List CExpr
  incl_energy_limits : Bool
  incl_charge_limits : Bool
  incl_discharge_limits : Bool
  limit_energy_max : Option (List ℚ)
  limit_charge_max : Option (List ℚ)
  limit_discharge_max : Option (List ℚ)
deriving DecidableEq

/-- Modelled from the spec: `EnergyStorage.__init__` and `Sizing.__init__`
(storagevet base classes, not under src/) store the user ratings as plain
numbers, derive the operational SOC bounds as `fraction × energy_capacity`
("derived operational SOC bounds are always fraction × energy_capacity"), and
start with an empty sizing-constraint list. -/
def EnergyStorage_init (p : ESSParams) : ESSState where
  ene_max_rated := .const p.ene_max_rated
  ch_max_rated := .const p.ch_max_rated
  dis_max_rated := .const p.dis_max_rated
  effective_soe_min := .const (p.llsoc * p.ene_max_rated)
  effective_soe_max := .const (p.ulsoc * p.ene_max_rated)
  llsoc := p.llsoc
  ulsoc := p.ulsoc
  size_constraints := []
  incl_energy_limits := p.incl_energy_limits
  incl_charge_limits := p.incl_charge_limits
  incl_discharge_limits := p.incl_discharge_limits
  limit_energy_max := p.limit_energy_max
  limit_charge_max := p.limit_charge_max
  limit_discharge_max := p.limit_discharge_max

/-- First section of `ESSSizing.__init__` (ESSSizing.py lines 40-49): "if
the user inputted the energy rating as 0, then size for energy rating" —
the rating becomes an integer cvxpy variable with a non-negativity
constraint, the effective SOE limits are recalculated as cvxpy expressions,
and a conflicting time-varying energy limit is disabled with a logged
error. -/
def ess_size_energy (s : ESSState) : ESSState :=
  if s.ene_max_rated = .const 0 then
    { s with
      ene_max_rated := .var "Energy_cap"
      size_constraints := s.size_constraints ++ [.smul (-1) (.var "Energy_cap")]
      effective_soe_min := .smul s.llsoc (.var "Energy_cap")
      effective_soe_max := .smul s.ulsoc (.var "Energy_cap")
      limit_energy_max :=
        if s.incl_energy_limits ∧ s.limit_energy_max ≠ none then none
        else s.limit_energy_max }
  else s

/-- Second section of `ESSSizing.__init__` (ESSSizing.py lines 51-75): the
if/elif chain over the charge and discharge ratings. -/
def ess_size_power (s : ESSState) : ESSState :=
  if s.ch_max_rated = .const 0 ∧ s.dis_max_rated = .const 0 then
    { s with
      ch_max_rated := .var "power_cap"
      size_constraints := s.size_constraints ++ [.smul (-1) (.var "power_cap")]
      dis_max_rated := .var "power_cap"
      limit_charge_max :=
        if s.incl_charge_limits ∧ s.limit_charge_max ≠ none then none
        else s.limit_charge_max
      limit_discharge_max :=
        if s.incl_discharge_limits ∧ s.limit_discharge_max ≠ none then none
        else s.limit_discharge_max }
  else if s.ch_max_rated = .const 0 then
    { s with
      ch_max_rated := .var "charge_power_cap"
      size_constraints := s.size_constraints ++ [.smul (-1) (.var "charge_power_cap")]
      limit_charge_max :=
        if s.incl_charge_limits ∧ s.limit_charge_max ≠ none then none
        else s.limit_charge_max }
  else if s.dis_max_rated = .const 0 then
    { s with
      dis_max_rated := .var "discharge_power_cap"
      size_constraints := s.size_constraints ++ [.smul (-1) (.var "discharge_power_cap")]
      limit_discharge_max :=
        if s.incl_discharge_limits ∧ s.limit_discharge_max ≠ none then none
        else s.limit_discharge_max }
  else s

/-- `ESSSizing.__init__` (ESSSizing.py lines 30-75): base-class
initialisation, then the energy-sizing section, then the power-sizing
if/elif chain. -/
def ESSSizing_init (p : ESSParams) : ESSState :=
  ess_size_power (ess_size_energy (EnergyStorage_init p))

/-- `ESSSizing.discharge_capacity` (lines 77-90): pre-solve returns the
rating object; post-solve resolves it through the try/except idiom.  The
result is the returned Python value (a number, or `none` for Python `None`)
paired with the instance state after the call — the method only reads. -/
def discharge_capacity (solution : Bool) (sol : Assignment) (s : ESSState) :
    (CExpr ⊕ Option ℚ) × ESSState :=
  if ¬ solution then (Sum.inl s.dis_max_rated, s)
  else (Sum.inr (try_value sol s.dis_max_rated), s)

/-- `ESSSizing.charge_capacity` (lines 92-105).  NOTE: the pre-solve branch
of the source returns `self.dis_max_rated` (line 99); the embedding is
faithful to that. -/
def charge_capacity (solution : Bool) (sol : Assignment) (s : ESSState) :
    (CExpr ⊕ Option ℚ) × ESSState :=
  if ¬ solution then (Sum.inl s.dis_max_rated, s)
  else (Sum.inr (try_value sol s.ch_max_rated), s)

/-- `ESSSizing.energy_capacity` (lines 107-120). -/
def energy_capacity (solution : Bool) (sol : Assignment) (s : ESSState) :
    (CExpr ⊕ Option ℚ) × ESSState :=
  if ¬ solution then (Sum.inl s.ene_max_rated, s)
  else (Sum.inr (try_value sol s.ene_max_rated), s)

/-- `ESSSizing.operational_max_energy` (lines 122-135). -/
def operational_max_energy (solution : Bool) (sol : Assignment) (s : ESSState) :
    CExpr ⊕ Option ℚ :=
  if ¬ solution then Sum.inl s.effective_soe_max
  else Sum.inr (try_value sol s.effective_soe_max)

/-- `ESSSizing.operational_min_energy` (lines 137-149). -/
def operational_min_energy (solution : Bool) (sol : Assignment) (s : ESSState) :
    CExpr ⊕ Option ℚ :=
  if ¬ solution then Sum.inl s.effective_soe_min
  else Sum.inr (try_value sol s.effective_soe_min)

/-- `ESSSizing.calculate_duration` (lines 206-216): resolve the energy rating
through try/except, then divide by `discharge_capacity(solution=True)`.
Python raises an uncaught `ZeroDivisionError` when the divisor is zero and a
`TypeError` when either operand is `None`; both faults are modelled as
`none`. -/
def calculate_duration (sol : Assignment) (s : ESSState) : Option ℚ :=
  match try_value sol s.ene_max_rated,
        (discharge_capacity true sol s).1 with
  | some e, Sum.inr (some d) => if d = 0 then none else some (e / d)
  | _, _ => none

/-! ## DieselSizing (TechnologiesDER/DieselSizing.py) -/

/-- Parameters of a `DieselSizing` instance (the cost coefficients live on
the storagevet `Diesel` base class; `capital_cost` is the fixed $ cost and
`ccost_kw` the $/kW cost reported in `sizing_summary`). -/
structure DieselParams where
  capital_cost : ℚ
  ccost_kw : ℚ
  p_max : ℚ
  n_min : ℚ
  n_max : ℚ
deriving DecidableEq

/-- Attributes set by `DieselSizing.__init__`. -/
structure DieselState where
  capital_cost : ℚ
  ccost_kw : ℚ
  p_max : ℚ
  n_min : ℚ
  n_max : ℚ
  n : CExpr
  capex : CExpr
deriving DecidableEq

/-- `DieselSizing.__init__` (DieselSizing.py lines 24-36): the unit count `n`
becomes an integer cvxpy variable and
`self.capex = self.capital_cost * self.n + self.capital_cost * self.p_max`
(the second product of the source multiplies `capital_cost`, not `ccost_kw`,
by `p_max`, and is a plain number). -/
def DieselSizing_init (p : DieselParams) : DieselState where
  capital_cost := p.capital_cost
  ccost_kw := p.ccost_kw
  p_max := p.p_max
  n_min := p.n_min
  n_max := p.n_max
  n := .var "generators"
  capex := .add (.smul p.capital_cost (.var "generators"))
                (.const (p.capital_cost * p.p_max))

/-! ## The rolling-horizon dispatch loop
(`MicrogridScenario.optimize_problem_loop`, lines 99-163) -/

/-- A DER as seen by the loop: an identifier and whether
`technology_type == "Energy Storage System"`. -/
structure DerTag where
  id : ℕ
  isESS : Bool
deriving DecidableEq, Repr

/-- Observable events of one `optimize_problem_loop` run, in execution
order. -/
inductive Ev where
  | applyPastDeg (der : ℕ)
  | solveWindow (period : ℕ)
  | calcDeg (der : ℕ)
  | appendObjective (period : ℕ)
  | saveDer (der : ℕ)
  | saveVS (vs : ℕ)
deriving DecidableEq, Repr

/-- Inputs that determine the control flow of `optimize_problem_loop`:
service-aggregator predicates, POI predicates, the `predictive` column of
`optimization_levels` (in time order), the DER list and the value-stream
keys. -/
structure LoopConfig where
  is_sizing_optimization : Bool
  is_whole_sale_market : Bool
  post_facto_reliability_only : Bool
  is_dcp_error : Bool
  is_deferral_only : Bool
  predictive : List ℕ
  der_list : List DerTag
  value_streams : List ℕ
deriving DecidableEq

/-- First-appearance deduplication with a seen-set accumulator: the
documented semantics of `pandas.Series.unique` ("uniques are returned in
order of appearance"), applied to the `predictive` column. -/
def pandas_unique_aux (seen : List ℕ) : List ℕ → List ℕ
  | [] => []
  | x :: xs =>
    if x ∈ seen then pandas_unique_aux seen xs
    else x :: pandas_unique_aux (x :: seen) xs

/-- `self.optimization_levels.predictive.unique()` (line 130). -/
def pandas_unique (l : List ℕ) : List ℕ := pandas_unique_aux [] l

/-- The body of the `for opt_period in ...unique()` loop (lines 132-162),
transcribed statement by statement: degradation is applied to every
energy-storage DER, the window is set up and solved, degradation is
recalculated for every energy-storage DER, the objective values are
appended, and every DER's and every value stream's variable results are
saved. -/
def window_trace (c : LoopConfig) (p : ℕ) : List Ev :=
  (c.der_list.foldl (fun acc d =>
      if d.isESS then acc ++ [Ev.applyPastDeg d.id] else acc) [])
  ++ [Ev.solveWindow p]
  ++ (c.der_list.foldl (fun acc d =>
      if d.isESS then acc ++ [Ev.calcDeg d.id] else acc) [])
  ++ [Ev.appendObjective p]
  ++ (c.der_list.foldl (fun acc d => acc ++ [Ev.saveDer d.id]) [])
  ++ (c.value_streams.foldl (fun acc v => acc ++ [Ev.saveVS v]) [])

/-- Continuation of `optimize_problem_loop` after the sizing guards
(lines 122-163): the deferral-only / post-facto-only skip, then the rolling
loop over the unique optimization periods. -/
def optimize_loop_main (c : LoopConfig) : Bool × List Ev :=
  if c.is_deferral_only || c.post_facto_reliability_only then (true, [])
  else (true, (pandas_unique c.predictive).foldl
      (fun acc p => acc ++ window_trace c p) [])

/-- `MicrogridScenario.optimize_problem_loop` (lines 99-163): under sizing
optimization, three guards each `return False` before the loop; otherwise
control falls through to the skip check and the rolling loop.  The result is
the returned boolean paired with the trace of events performed. -/
def optimize_problem_loop (c : LoopConfig) : Bool × List Ev :=
  if c.is_sizing_optimization then
    if c.is_whole_sale_market then (false, [])
    else if c.post_facto_reliability_only then (false, [])
    else if c.is_dcp_error then (false, [])
    else optimize_loop_main c
  else optimize_loop_main c

/-! ## The reliability-based sizing loop
(`MicrogridScenario.Reliability_based_sizing_module`, lines 165-227) -/

/-- The inner verification sweep (lines 199-210): walk `outage_init` over
the whole horizon; for each start index the simulated survival length
(`len(soc_profile)`, abstracted as `survival outage_init` since
`simulate_outage` lives in the storagevet `Reliability` value stream) is a
genuine failure when it is shorter than the required outage duration and
shorter than the remaining horizon; the loop breaks at the first such index,
leaving `First_failure_ind = -1` when none exists. -/
def first_failure_ind (survival : ℕ → ℕ) (horizon dur : ℕ) : ℤ :=
  match (List.range horizon).find?
      (fun i => decide (survival i < dur ∧ survival i < horizon - i)) with
  | some i => (i : ℤ)
  | none => -1

/-- Outcome of one iteration of the `while IsReliable == 'No'` loop. -/
inductive SizingLoopStep where
  | resize (analysis_indices : List ℕ)
  | declared_reliable
deriving DecidableEq, Repr

/-- One iteration of the outer sizing loop after the fleet has been re-sized
for the current candidate set (lines 213-216): when `First_failure_ind > 0`
the index is appended to `analysis_indices` and the loop repeats, otherwise
`IsReliable` is set to `'Yes'` and the loop terminates. -/
def reliability_iteration (survival : ℕ → ℕ) (horizon dur : ℕ)
    (analysis_indices : List ℕ) : SizingLoopStep :=
  let f := first_failure_ind survival horizon dur
  if f > 0 then .resize (analysis_indices ++ [f.toNat])
  else .declared_reliable

/-! ## Initial candidate-outage ranking (lines 173-183) -/

/-- `top_n_outages = 10` (line 173). -/
def top_n_outages : ℕ := 10

/-- The contract of `np.argsort(-1 * u)` with the default `kind='quicksort'`
(numpy documents this sort as not stable): `p` is some permutation of all
indices along which `u` is weakly decreasing.  Which permutation is returned
among the valid ones is unspecified when `u` has ties. -/
def argsort_desc_output (u : List ℚ) (p : List (Fin u.length)) : Prop :=
  List.Perm (p.map Fin.val) (List.range u.length)
  ∧ p.Pairwise (fun i j => u.get j ≤ u.get i)

/-- The tie-break the spec claims: strictly decreasing unmet load, with ties
broken by original time order (smaller index first). -/
def stable_tie_break (u : List ℚ) (p : List (Fin u.length)) : Prop :=
  p.Pairwise (fun i j => u.get j < u.get i ∨ (u.get i = u.get j ∧ i < j))

/-- `analysis_indices = indices[:top_n_outages]` (line 183) applied to an
argsort output. -/
def analysis_indices_init (u : List ℚ) (p : List (Fin u.length)) :
    List (Fin u.length) :=
  p.take top_n_outages

/-! ## Reliability module guard (lines 165-172, 219-227) -/

/-- Scenario attributes touched (or not) by
`Reliability_based_sizing_module`: the value-stream keys, the sizing flag,
the POI's DER list, and all remaining mutable scenario state abstracted into
`misc`. -/
structure ScenarioState where
  value_stream_keys : List String
  is_sizing_optimization : Bool
  der_list : List ℕ
  misc : ℕ
deriving DecidableEq

/-- `MicrogridScenario.Reliability_based_sizing_module` (lines 165-227):
when `'Reliability'` is not an active value stream or the POI is not in
sizing-optimization mode the method returns at once; otherwise the sizing
body (deep copy, sizing loop, `set_size`, minimum-SOE pass — abstracted as
`size_fleet` since it is driven by the storagevet `Reliability` value
stream) runs and its result is written back to `self.poi.der_list`.  The
boolean records whether the sizing body ran. -/
def Reliability_based_sizing_module (size_fleet : List ℕ → List ℕ)
    (s : ScenarioState) : ScenarioState × Bool :=
  if "Reliability" ∉ s.value_stream_keys ∨ s.is_sizing_optimization = false then
    (s, false)
  else
    ({ s with der_list := size_fleet s.der_list }, true)

/-! ## Concrete instances used to evaluate the code at specific inputs -/

/-- A battery with energy rating 100 kWh and discharge rating 50 kW, whose
charge rating is input as zero and therefore sized (the `elif not
self.ch_max_rated` branch of `ESSSizing.__init__`). -/
def ess_params_charge_sized : ESSParams where
  ene_max_rated := 100
  ch_max_rated := 0
  dis_max_rated := 50
  llsoc := 1/10
  ulsoc := 9/10
  incl_energy_limits := false
  incl_charge_limits := false
  incl_discharge_limits := false
  limit_energy_max := none
  limit_charge_max := none
  limit_discharge_max := none

/-- A battery with energy rating 100 kWh and charge rating 30 kW, whose
discharge rating is input as zero and therefore sized. -/
def ess_params_discharge_sized : ESSParams where
  ene_max_rated := 100
  ch_max_rated := 30
  dis_max_rated := 0
  llsoc := 1/10
  ulsoc := 9/10
  incl_energy_limits := false
  incl_charge_limits := false
  incl_discharge_limits := false
  limit_energy_max := none
  limit_charge_max := none
  limit_discharge_max := none

/-- A battery whose energy rating is input as zero and therefore sized,
with a time-varying energy limit configured (to be disabled by sizing). -/
def ess_params_energy_sized : ESSParams where
  ene_max_rated := 0
  ch_max_rated := 20
  dis_max_rated := 50
  llsoc := 1/10
  ulsoc := 9/10
  incl_energy_limits := true
  incl_charge_limits := false
  incl_discharge_limits := false
  limit_energy_max := some [5, 5]
  limit_charge_max := none
  limit_discharge_max := none

/-- A battery whose energy rating is the fixed literal 100 kWh. -/
def ess_params_energy_fixed : ESSParams where
  ene_max_rated := 100
  ch_max_rated := 20
  dis_max_rated := 50
  llsoc := 1/10
  ulsoc := 9/10
  incl_energy_limits := false
  incl_charge_limits := false
  incl_discharge_limits := false
  limit_energy_max := none
  limit_charge_max := none
  limit_discharge_max := none

/-- The state before any solve: every cvxpy variable's `.value` is `None`. -/
def no_solution : Assignment := fun _ => none

/-- A solve in which the sized discharge rating resolves to zero. -/
def sol_dis_zero : Assignment :=
  fun n => if n = "discharge_power_cap" then some 0 else none

/-- A solve in which the sized discharge rating resolves to 10 kW. -/
def sol_dis_ten : Assignment :=
  fun n => if n = "discharge_power_cap" then some 10 else none

/-- A generator with fixed capital cost $1000, $/kW capital cost 500,
per-unit rated power 100 kW. -/
def diesel_params_ex : DieselParams where
  capital_cost := 1000
  ccost_kw := 500
  p_max := 100
  n_min := 1
  n_max := 5

/-- A solve in which the generator unit count resolves to 2. -/
def sol_generators_two : Assignment :=
  fun n => if n = "generators" then some 2 else none

/-- A sweep in which every simulated survival length is zero: with outage
duration 2 over a horizon of 3 steps, start index 0 is a genuine failure. -/
def survival_all_zero : ℕ → ℕ := fun _ => 0

/-- An unmet-load profile with a tie between time steps 0 and 1. -/
def u_tied : List ℚ := [5, 5]

/-- A permutation that sorts `u_tied` weakly decreasingly but breaks the tie
against original time order. -/
def p_swapped : List (Fin u_tied.length) := [⟨1, by decide⟩, ⟨0, by decide⟩]

/-- An unmet-load profile without ties: values 3, 1, 2. -/
def u_distinct : List ℚ := [3, 1, 2]

/-- The unique descending argsort of `u_distinct`: indices 0, 2, 1. -/
def p_distinct : List (Fin u_distinct.length) :=
  [⟨0, by decide⟩, ⟨2, by decide⟩, ⟨1, by decide⟩]

/-- A loop configuration in sizing mode with only wholesale-market services
active. -/
def cfg_wholesale : LoopConfig where
  is_sizing_optimization := true
  is_whole_sale_market := true
  post_facto_reliability_only := false
  is_dcp_error := false
  is_deferral_only := false
  predictive := [0, 0, 1]
  der_list := [⟨0, true⟩, ⟨1, false⟩]
  value_streams := [7]

/-- A non-sizing configuration with two optimization periods, one storage
DER, one generator DER and one value stream. -/
def cfg_dispatch : LoopConfig where
  is_sizing_optimization := false
  is_whole_sale_market := false
  post_facto_reliability_only := false
  is_dcp_error := false
  is_deferral_only := false
  predictive := [0, 0, 1, 1]
  der_list := [⟨0, true⟩, ⟨1, false⟩]
  value_streams := [7]

/-- A scenario whose POI is in sizing mode but with no `'Reliability'`
value stream. -/
def state_no_reliability : ScenarioState where
  value_stream_keys := ["DA", "DCM"]
  is_sizing_optimization := true
  der_list := [0, 1]
  misc := 42

/-! ## Helper lemmas -/

theorem foldl_snoc_filter_map {α β : Type} (f : α → Bool) (g : α → β) :
    ∀ (l : List α) (acc : List β),
      l.foldl (fun a d => if f d then a ++ [g d] else a) acc
        = acc ++ (l.filter f).map g := by
  intro l
  induction l with
  | nil => intro acc; simp
  | cons x xs ih =>
    intro acc
    by_cases h : f x <;> simp [List.foldl_cons, h, ih, List.filter_cons]

theorem foldl_snoc_map {α β : Type} (g : α → β) :
    ∀ (l : List α) (acc : List β),
      l.foldl (fun a d => a ++ [g d]) acc = acc ++ l.map g := by
  intro l
  induction l with
  | nil => intro acc; simp
  | cons x xs ih => intro acc; simp [List.foldl_cons, ih]

theorem foldl_append_eq_flatMap {α β : Type} (w : α → List β) :
    ∀ (l : List α) (acc : List β),
      l.foldl (fun a p => a ++ w p) acc = acc ++ l.flatMap w := by
  intro l
  induction l with
  | nil => intro acc; simp
  | cons x xs ih => intro acc; simp [List.foldl_cons, ih]

theorem window_trace_eq (c : LoopConfig) (p : ℕ) :
    window_trace c p
      = ((c.der_list.filter (fun d => d.isESS)).map (fun d => Ev.applyPastDeg d.id))
        ++ [Ev.solveWindow p]
        ++ ((c.der_list.filter (fun d => d.isESS)).map (fun d => Ev.calcDeg d.id))
        ++ [Ev.appendObjective p]
        ++ (c.der_list.map (fun d => Ev.saveDer d.id))
        ++ (c.value_streams.map Ev.saveVS) := by
  unfold window_trace
  rw [foldl_snoc_filter_map, foldl_snoc_filter_map, foldl_snoc_map, foldl_snoc_map]
  simp

theorem pandas_unique_aux_sorted :
    ∀ (l seen : List ℕ), l.Pairwise (· ≤ ·) →
      (pandas_unique_aux seen l).Pairwise (· < ·)
      ∧ ∀ y ∈ pandas_unique_aux seen l, y ∈ l ∧ y ∉ seen := by
  intro l
  induction l with
  | nil => intro seen _; simp [pandas_unique_aux]
  | cons x xs ih =>
    intro seen hl
    rw [List.pairwise_cons] at hl
    obtain ⟨hx, hxs⟩ := hl
    by_cases hmem : x ∈ seen
    · rw [pandas_unique_aux, if_pos hmem]
      obtain ⟨h1, h2⟩ := ih seen hxs
      exact ⟨h1, fun y hy =>
        ⟨List.mem_cons_of_mem _ (h2 y hy).1, (h2 y hy).2⟩⟩
    · rw [pandas_unique_aux, if_neg hmem]
      obtain ⟨h1, h2⟩ := ih (x :: seen) hxs
      constructor
      · rw [List.pairwise_cons]
        refine ⟨fun y hy => ?_, h1⟩
        have hy1 := (h2 y hy).1
        have hy2 := (h2 y hy).2
        have hne : y ≠ x := fun he => hy2 (he ▸ List.mem_cons_self x seen)
        exact lt_of_le_of_ne (hx y hy1) (Ne.symm hne)
      · intro y hy
        rcases List.mem_cons.mp hy with he | hy
        · exact ⟨he ▸ List.mem_cons_self x xs, he ▸ hmem⟩
        · exact ⟨List.mem_cons_of_mem _ (h2 y hy).1,
            fun hs => (h2 y hy).2 (List.mem_cons_of_mem _ hs)⟩

theorem ess_size_power_preserves (s : ESSState) :
    (ess_size_power s).ene_max_rated = s.ene_max_rated
    ∧ (ess_size_power s).effective_soe_min = s.effective_soe_min
    ∧ (ess_size_power s).effective_soe_max = s.effective_soe_max
    ∧ (ess_size_power s).llsoc = s.llsoc
    ∧ (ess_size_power s).ulsoc = s.ulsoc := by
  unfold ess_size_power
  split_ifs <;> exact ⟨rfl, rfl, rfl, rfl, rfl⟩

theorem ess_size_power_keeps (s : ESSState) :
    (ess_size_power s).limit_energy_max = s.limit_energy_max
    ∧ ∀ c ∈ s.size_constraints, c ∈ (ess_size_power s).size_constraints := by
  unfold ess_size_power
  split_ifs <;> exact ⟨rfl, fun c hc => by simp [hc]⟩

/-! ## Claims -/

/-- C1: the claim states that `charge_capacity(solution=False)` returns the
charge rating object (the charge decision variable when the charge rating
was sized).  On a battery whose charge rating is sized and whose discharge
rating is fixed at 50 kW, the source's pre-solve branch (`return
self.dis_max_rated`, ESSSizing.py line 99) returns the literal 50 — the
discharge rating — and not the freshly created `charge_power_cap` variable,
so the claim fails on the code; `discharge_capacity(solution=False)` does
return its own rating. -/
theorem charge_capacity_returns_discharge_rating :
    (discharge_capacity false no_solution (ESSSizing_init ess_params_charge_sized)).1
      = Sum.inl (ESSSizing_init ess_params_charge_sized).dis_max_rated
    ∧ (ESSSizing_init ess_params_charge_sized).ch_max_rated
      = CExpr.var "charge_power_cap"
    ∧ (charge_capacity false no_solution (ESSSizing_init ess_params_charge_sized)).1
      = Sum.inl (CExpr.const 50)
    ∧ (charge_capacity false no_solution (ESSSizing_init ess_params_charge_sized)).1
      ≠ Sum.inl (ESSSizing_init ess_params_charge_sized).ch_max_rated := by
  refine ⟨rfl, ?_, ?_, ?_⟩
  · norm_num [ESSSizing_init, ess_size_energy, ess_size_power,
      EnergyStorage_init, ess_params_charge_sized]
  · norm_num [ESSSizing_init, ess_size_energy, ess_size_power,
      EnergyStorage_init, ess_params_charge_sized, charge_capacity]
  · norm_num [ESSSizing_init, ess_size_energy, ess_size_power,
      EnergyStorage_init, ess_params_charge_sized, charge_capacity]
    decide

/-- C2: the claim states the reliability sizing loop terminates only when a
full-horizon sweep finds no genuine failing start index.  With every
simulated survival length equal to zero, horizon 3 and required outage
duration 2, start index 0 is a genuine failure (survival 0 < duration and
survival 0 < remaining horizon) and it is the first failure found, yet the
source's `if First_failure_ind > 0` test (MicrogridScenario.py line 213)
rejects index 0 and the iteration declares the fleet reliable. -/
theorem reliability_loop_terminates_despite_failure_at_zero :
    (survival_all_zero 0 < 2 ∧ survival_all_zero 0 < 3 - 0)
    ∧ first_failure_ind survival_all_zero 3 2 = 0
    ∧ reliability_iteration survival_all_zero 3 2 [] = .declared_reliable := by
  decide

/-- C3: the claim states that `calculate_duration` reports an error rather
than raising an uncaught division fault when the discharge rating resolves
to zero.  The source (ESSSizing.py line 216) divides unconditionally: on a
battery whose sized discharge rating solves to 0 the division faults
(modelled as `none` — no error is reported, a `ZeroDivisionError`
propagates), while a rating of 10 with energy 100 yields 10 as the claim
says for positive ratings. -/
theorem calculate_duration_division_fault_at_zero :
    calculate_duration sol_dis_zero (ESSSizing_init ess_params_discharge_sized) = none
    ∧ calculate_duration sol_dis_ten (ESSSizing_init ess_params_discharge_sized)
      = some 10 := by
  norm_num [ESSSizing_init, ess_size_energy, ess_size_power,
    EnergyStorage_init, ess_params_discharge_sized,
    calculate_duration, try_value, exprVal, discharge_capacity,
    sol_dis_zero, sol_dis_ten]

/-- C4: the claim states that a sized generator's capital cost equals
`fixed × unit_count + $/kW × per_unit_power`.  The source (DieselSizing.py
line 36) multiplies `capital_cost` — the fixed $ coefficient — by `p_max`
instead of the $/kW coefficient `ccost_kw`: with fixed cost 1000, $/kW cost
500, per-unit power 100 and 2 units, the code's capex evaluates to 102000
while the claimed formula gives 52000. -/
theorem diesel_capex_uses_fixed_cost_for_kw_term :
    exprVal sol_generators_two (DieselSizing_init diesel_params_ex).capex
      = some 102000
    ∧ diesel_params_ex.capital_cost * 2 + diesel_params_ex.ccost_kw * 100 = 52000
    ∧ (102000 : ℚ) ≠ 52000 := by
  norm_num [DieselSizing_init, diesel_params_ex, exprVal, sol_generators_two]

/-- C5 counterexample: the claim states the initial candidate outages are
obtained by sorting with ties broken by original time order.  `np.argsort`
is called with its default unstable `kind='quicksort'`, whose contract only
promises some weakly-decreasing permutation: on the tied profile `[5, 5]`
the permutation `[1, 0]` is a valid argsort output but violates the claimed
tie-break. -/
theorem argsort_tie_break_not_stable :
    argsort_desc_output u_tied p_swapped ∧ ¬ stable_tie_break u_tied p_swapped := by
  constructor
  · refine ⟨by decide, ?_⟩
    simp [u_tied, p_swapped, List.pairwise_cons]
  · intro h
    unfold stable_tie_break p_swapped at h
    rw [List.pairwise_cons] at h
    have := h.1 ⟨0, by decide⟩ (by simp)
    simp [u_tied] at this

/-- C5 (amended): the initial candidate outage set is the first
`top_n_outages` entries of a permutation of all time steps along which the
unmet load is weakly decreasing — so each selected step's unmet load is at
least every unselected step's, and the set has `min 10 n` entries — but the
order among tied unmet-load values is unspecified. -/
theorem analysis_indices_top_n (u : List ℚ) (p : List (Fin u.length))
    (h : argsort_desc_output u p) :
    (analysis_indices_init u p).Pairwise (fun i j => u.get j ≤ u.get i)
    ∧ (∀ i ∈ analysis_indices_init u p, ∀ j ∈ p.drop top_n_outages,
        u.get j ≤ u.get i)
    ∧ (analysis_indices_init u p).length = min top_n_outages u.length := by
  obtain ⟨hperm, hsorted⟩ := h
  refine ⟨?_, ?_, ?_⟩
  · exact List.Pairwise.sublist (List.take_sublist _ _) hsorted
  · have h2 : List.Pairwise (fun i j => u.get j ≤ u.get i)
        (p.take top_n_outages ++ p.drop top_n_outages) := by
      rw [List.take_append_drop]; exact hsorted
    exact (List.pairwise_append.mp h2).2.2
  · have hlen : p.length = u.length := by
      have := hperm.length_eq
      simpa using this
    simp [analysis_indices_init, hlen]

/-- C5 witness: the amended theorem applied to the tie-free profile
`[3, 1, 2]` and its descending argsort `[0, 2, 1]`. -/
theorem analysis_indices_top_n_witness :
    argsort_desc_output u_distinct p_distinct
    ∧ (analysis_indices_init u_distinct p_distinct).Pairwise
        (fun i j => u_distinct.get j ≤ u_distinct.get i)
    ∧ (analysis_indices_init u_distinct p_distinct).length
        = min top_n_outages u_distinct.length := by
  have h : argsort_desc_output u_distinct p_distinct := by
    refine ⟨by decide, ?_⟩
    simp [u_distinct, p_distinct, List.pairwise_cons]
    norm_num
  exact ⟨h, (analysis_indices_top_n u_distinct p_distinct h).1,
    (analysis_indices_top_n u_distinct p_distinct h).2.2⟩

/-- C6: when sizing optimization is requested and only wholesale-market
services are active, or only post-facto reliability analysis is requested,
or power sizing is combined with a binary dispatch formulation, the
optimization loop returns `False` with an empty event trace — no window is
set up or solved. -/
theorem sizing_guard_fails_before_any_window (c : LoopConfig)
    (hsz : c.is_sizing_optimization = true)
    (h : c.is_whole_sale_market = true ∨ c.post_facto_reliability_only = true
      ∨ c.is_dcp_error = true) :
    optimize_problem_loop c = (false, []) := by
  unfold optimize_problem_loop
  rw [hsz]
  rcases h with h | h | h <;> · simp only [if_true]; split_ifs <;> simp_all

/-- C6 witness: the guard theorem applied to a sizing configuration with
only wholesale-market services. -/
theorem sizing_guard_fails_before_any_window_witness :
    optimize_problem_loop cfg_wholesale = (false, []) :=
  sizing_guard_fails_before_any_window cfg_wholesale rfl (Or.inl rfl)

/-- C7: after `ESSSizing.__init__`, the operational SOC bound accessors
return exactly `effective_soe_min` / `effective_soe_max` pre-solve; under
every solver assignment those bounds evaluate to the lower/upper SOC
fraction times the value of the energy rating; when the energy rating is
input as zero it becomes the newly created `Energy_cap` decision variable,
the SOC bounds are recomputed symbolically as that variable scaled by the
SOC fractions, the variable's non-negativity constraint is recorded, and a
configured time-varying energy limit is disabled (set to `None`); a nonzero
input rating stays the literal. -/
theorem operational_soc_bounds_fraction_of_capacity (p : ESSParams)
    (sol : Assignment) :
    operational_max_energy false sol (ESSSizing_init p)
      = Sum.inl (ESSSizing_init p).effective_soe_max
    ∧ operational_min_energy false sol (ESSSizing_init p)
      = Sum.inl (ESSSizing_init p).effective_soe_min
    ∧ (energy_capacity false sol (ESSSizing_init p)).1
      = Sum.inl (ESSSizing_init p).ene_max_rated
    ∧ exprVal sol (ESSSizing_init p).effective_soe_max
      = (exprVal sol (ESSSizing_init p).ene_max_rated).map (fun v => p.ulsoc * v)
    ∧ exprVal sol (ESSSizing_init p).effective_soe_min
      = (exprVal sol (ESSSizing_init p).ene_max_rated).map (fun v => p.llsoc * v)
    ∧ (p.ene_max_rated = 0 →
        (ESSSizing_init p).ene_max_rated = CExpr.var "Energy_cap"
        ∧ (ESSSizing_init p).effective_soe_min
            = CExpr.smul p.llsoc (CExpr.var "Energy_cap")
        ∧ (ESSSizing_init p).effective_soe_max
            = CExpr.smul p.ulsoc (CExpr.var "Energy_cap")
        ∧ CExpr.smul (-1) (CExpr.var "Energy_cap")
            ∈ (ESSSizing_init p).size_constraints
        ∧ (p.incl_energy_limits = true →
            (ESSSizing_init p).limit_energy_max = none))
    ∧ (p.ene_max_rated ≠ 0 →
        (ESSSizing_init p).ene_max_rated = CExpr.const p.ene_max_rated) := by
  obtain ⟨h1, h2, h3, _, _⟩ :=
    ess_size_power_preserves (ess_size_energy (EnergyStorage_init p))
  obtain ⟨h4, h5⟩ :=
    ess_size_power_keeps (ess_size_energy (EnergyStorage_init p))
  refine ⟨by simp [operational_max_energy], by simp [operational_min_energy],
    by simp [energy_capacity], ?_, ?_, ?_, ?_⟩
  · unfold ESSSizing_init
    rw [h1, h3]
    unfold ess_size_energy
    split_ifs <;> simp [EnergyStorage_init, exprVal]
  · unfold ESSSizing_init
    rw [h1, h2]
    unfold ess_size_energy
    split_ifs <;> simp [EnergyStorage_init, exprVal]
  · intro he
    have hcond : (EnergyStorage_init p).ene_max_rated = CExpr.const 0 := by
      simp [EnergyStorage_init, he]
    refine ⟨?_, ?_, ?_, ?_, ?_⟩
    · unfold ESSSizing_init
      rw [h1]
      unfold ess_size_energy
      rw [if_pos hcond]
    · unfold ESSSizing_init
      rw [h2]
      unfold ess_size_energy
      rw [if_pos hcond]
      simp [EnergyStorage_init]
    · unfold ESSSizing_init
      rw [h3]
      unfold ess_size_energy
      rw [if_pos hcond]
      simp [EnergyStorage_init]
    · unfold ESSSizing_init
      apply h5
      unfold ess_size_energy
      rw [if_pos hcond]
      simp
    · intro hincl
      unfold ESSSizing_init
      rw [h4]
      unfold ess_size_energy
      rw [if_pos hcond]
      simp only [EnergyStorage_init, hincl]
      split_ifs <;> simp_all
  · intro hne
    unfold ESSSizing_init
    rw [h1]
    unfold ess_size_energy
    rw [if_neg (by simp [EnergyStorage_init, hne])]
    rfl

/-- C7 witness: the invariant theorem applied to a battery with zero energy
input and a configured time-varying limit (energy-sized case) and to a
battery with the fixed literal rating 100 kWh. -/
theorem operational_soc_bounds_fraction_of_capacity_witness :
    (ESSSizing_init ess_params_energy_sized).ene_max_rated
      = CExpr.var "Energy_cap"
    ∧ (ESSSizing_init ess_params_energy_sized).effective_soe_min
      = CExpr.smul ess_params_energy_sized.llsoc (CExpr.var "Energy_cap")
    ∧ (ESSSizing_init ess_params_energy_sized).effective_soe_max
      = CExpr.smul ess_params_energy_sized.ulsoc (CExpr.var "Energy_cap")
    ∧ CExpr.smul (-1) (CExpr.var "Energy_cap")
      ∈ (ESSSizing_init ess_params_energy_sized).size_constraints
    ∧ (ESSSizing_init ess_params_energy_sized).limit_energy_max = none
    ∧ (ESSSizing_init ess_params_energy_fixed).ene_max_rated
      = CExpr.const ess_params_energy_fixed.ene_max_rated := by
  have hs := (operational_soc_bounds_fraction_of_capacity
    ess_params_energy_sized no_solution).2.2.2.2.2.1 rfl
  have hf := (operational_soc_bounds_fraction_of_capacity
    ess_params_energy_fixed no_solution).2.2.2.2.2.2
    (by norm_num [ess_params_energy_fixed])
  exact ⟨hs.1, hs.2.1, hs.2.2.1, hs.2.2.2.1, hs.2.2.2.2 rfl, hf⟩

/-- C8: resolving a rating with `solution=True` is side-effect-free (the
state after the call is the argument state) and idempotent (a second call
returns the same result), returns the solved variable value when the rating
is a decision variable, and passes the literal through unchanged when it
never became symbolic — for the energy, discharge and charge accessors
alike. -/
theorem capacity_resolution_idempotent (sol : Assignment) (s : ESSState)
    (x : ℚ) (n : String) :
    (energy_capacity true sol s).2 = s
    ∧ (discharge_capacity true sol s).2 = s
    ∧ (charge_capacity true sol s).2 = s
    ∧ (energy_capacity true sol ((energy_capacity true sol s).2)).1
      = (energy_capacity true sol s).1
    ∧ (discharge_capacity true sol ((discharge_capacity true sol s).2)).1
      = (discharge_capacity true sol s).1
    ∧ (charge_capacity true sol ((charge_capacity true sol s).2)).1
      = (charge_capacity true sol s).1
    ∧ (energy_capacity true sol { s with ene_max_rated := .const x }).1
      = Sum.inr (some x)
    ∧ (energy_capacity true sol { s with ene_max_rated := .var n }).1
      = Sum.inr (sol n)
    ∧ (discharge_capacity true sol { s with dis_max_rated := .const x }).1
      = Sum.inr (some x)
    ∧ (discharge_capacity true sol { s with dis_max_rated := .var n }).1
      = Sum.inr (sol n)
    ∧ (charge_capacity true sol { s with ch_max_rated := .const x }).1
      = Sum.inr (some x)
    ∧ (charge_capacity true sol { s with ch_max_rated := .var n }).1
      = Sum.inr (sol n) := by
  simp [energy_capacity, discharge_capacity, charge_capacity, try_value, exprVal]

/-- C9: when the predictive labels are non-decreasing in time and the loop
is not skipped or aborted, the rolling-horizon loop visits the optimization
periods in strictly increasing order, and the realized event trace is, for
each period in that order: apply past degradation to each storage DER, solve
the window, calculate degradation for each storage DER, append the
objective values, then save every DER's and every value stream's variable
results. -/
theorem rolling_horizon_order (c : LoopConfig)
    (hsorted : c.predictive.Pairwise (· ≤ ·))
    (hskip1 : c.is_deferral_only = false)
    (hskip2 : c.post_facto_reliability_only = false)
    (hguard : c.is_sizing_optimization = true →
      c.is_whole_sale_market = false ∧ c.is_dcp_error = false) :
    (pandas_unique c.predictive).Pairwise (· < ·)
    ∧ (optimize_problem_loop c).2
      = (pandas_unique c.predictive).flatMap (fun p =>
          ((c.der_list.filter (fun d => d.isESS)).map
              (fun d => Ev.applyPastDeg d.id))
          ++ [Ev.solveWindow p]
          ++ ((c.der_list.filter (fun d => d.isESS)).map
              (fun d => Ev.calcDeg d.id))
          ++ [Ev.appendObjective p]
          ++ (c.der_list.map (fun d => Ev.saveDer d.id))
          ++ (c.value_streams.map Ev.saveVS)) := by
  constructor
  · exact (pandas_unique_aux_sorted c.predictive [] hsorted).1
  · have hmain : optimize_problem_loop c = optimize_loop_main c := by
      unfold optimize_problem_loop
      by_cases hsz : c.is_sizing_optimization = true
      · obtain ⟨hw, hd⟩ := hguard hsz
        simp [hsz, hw, hd, hskip2]
      · simp [Bool.of_not_eq_true hsz]
    rw [hmain]
    unfold optimize_loop_main
    rw [if_neg (by simp [hskip1, hskip2])]
    rw [foldl_append_eq_flatMap]
    simp only [List.nil_append]
    rw [funext (window_trace_eq c)]

/-- C9 witness: the ordering theorem applied to a two-period non-sizing
configuration with sorted predictive labels `[0, 0, 1, 1]`. -/
theorem rolling_horizon_order_witness :
    (pandas_unique cfg_dispatch.predictive).Pairwise (· < ·)
    ∧ (optimize_problem_loop cfg_dispatch).2
      = (pandas_unique cfg_dispatch.predictive).flatMap (fun p =>
          ((cfg_dispatch.der_list.filter (fun d => d.isESS)).map
              (fun d => Ev.applyPastDeg d.id))
          ++ [Ev.solveWindow p]
          ++ ((cfg_dispatch.der_list.filter (fun d => d.isESS)).map
              (fun d => Ev.calcDeg d.id))
          ++ [Ev.appendObjective p]
          ++ (cfg_dispatch.der_list.map (fun d => Ev.saveDer d.id))
          ++ (cfg_dispatch.value_streams.map Ev.saveVS)) :=
  rolling_horizon_order cfg_dispatch (by decide) rfl rfl
    (fun h => absurd h (by decide))

/-- C10: when `'Reliability'` is not an active value stream or the POI is
not in sizing-optimization mode, `Reliability_based_sizing_module` returns
immediately: the sizing body never runs and the scenario state — the DER
list included — is returned unchanged. -/
theorem reliability_module_frame (size_fleet : List ℕ → List ℕ)
    (s : ScenarioState)
    (h : "Reliability" ∉ s.value_stream_keys ∨ s.is_sizing_optimization = false) :
    Reliability_based_sizing_module size_fleet s = (s, false) := by
  unfold Reliability_based_sizing_module
  rw [if_pos h]

/-- C10 witness: the frame theorem applied to a sizing scenario without the
`'Reliability'` value stream, with an arbitrary concrete sizing body. -/
theorem reliability_module_frame_witness :
    Reliability_based_sizing_module (fun l => l ++ [9]) state_no_reliability
      = (state_no_reliability, false) :=
  reliability_module_frame (fun l => l ++ [9]) state_no_reliability
    (Or.inl (by decide))

end DerVet
